import Mathlib

/-!
Verification development for the mempool-monitor snapshot-diff and
persistence-mapping engine.

The Python source is embedded shallowly:
* the verbose mempool (a Python `dict` from txid to per-transaction data)
  becomes an association list `Snapshot = List (String × TxInfo)` whose
  iteration order is the dict's insertion order and whose keys are distinct
  for values produced by a dict;
* the pure parsing/diff functions of `monitor.py` and `sql_db_interface.py`
  become Lean functions over that representation;
* the external SQL store is abstracted by a `StoreBehavior` oracle saying
  whether each batched insert succeeds, and the fallible RPC calls by
  `Except Unit` inputs; exception control flow is made explicit in the
  return types.

Fee amounts are exact-precision decimals in the source; they are carried
opaquely here as integers (a fixed scaling), since no verified property
inspects them.
-/

namespace Mpmonitor

/-- String constant `ANCESTOR = "ancestor"` from sql_db_structure.py. -/
def ANCESTOR : String := "ancestor"

/-- String constant `DESCENDANT = "descendant"` from sql_db_structure.py. -/
def DESCENDANT : String := "descendant"

/-- String constant `DESCEND = "descend"` from sql_db_structure.py (line 37);
this — not `DESCENDANT` — is the tag written into relation-edge rows. -/
def DESCEND : String := "descend"

/-- String constant `MODE_INIT = "INIT"` from sql_db_structure.py. -/
def MODE_INIT : String := "INIT"

/-- String constant `MODE_ADD = "ADD"` from sql_db_structure.py. -/
def MODE_ADD : String := "ADD"

/-- String constant `MODE_SUB = "SUB"` from sql_db_structure.py. -/
def MODE_SUB : String := "SUB"

/-- Per-transaction data of one entry of the verbose mempool, as returned by
`getrawmempool True` and consumed by the parsers: counts, sizes, the
replaceable flag, the four fee components (scaled to integers), height,
first-seen time, vsize, weight, wtxid, and the `depends` / `spentby`
txid lists. -/
structure TxInfo where
  ancestorcount : Nat
  ancestorsize : Nat
  bip125_replaceable : Bool
  descendantcount : Nat
  descendantsize : Nat
  fees_base : Int
  fees_ancestor : Int
  fees_descendant : Int
  fees_modified : Int
  height : Nat
  time : Nat
  vsize : Nat
  weight : Nat
  wtxid : String
  depends : List String
  spentby : List String
deriving DecidableEq, Repr

/-- A verbose mempool snapshot: Python dict from txid to TxInfo, embedded as
an association list in dict iteration order. -/
abbrev Snapshot : Type := List (String × TxInfo)

/-- Keys of a snapshot, in iteration order (`for txid in mempool` /
`set(mempool)` both range over these keys). -/
def dictKeys (m : Snapshot) : List String := m.map Prod.fst

/-- Python dict indexing `mempool[txid]`: the value stored at `txid`
(`none` when the key is absent, where Python would raise KeyError). -/
def dictGet (m : Snapshot) (k : String) : Option TxInfo :=
  match m with
  | [] => none
  | (k', v) :: rest => if k' = k then some v else dictGet rest k

/-- Embedding of `MempoolMonitor.calculate_mempool_deltas` (monitor.py
lines 264-292).  `delta_add = list(set(cur) - set(prev))`,
`delta_sub = list(set(prev) - set(cur))`; the ADD projection reads values
from the newer snapshot, the SUB projection from the older.  The
unspecified iteration order of a Python set is fixed here as the
key-preserving filter order; all verified statements are membership
statements, insensitive to that choice.  Returns `(ADD, SUB)`. -/
def calculate_mempool_deltas (mempool_t mempool_tpone : Snapshot) :
    Snapshot × Snapshot :=
  let delta_add := (dictKeys mempool_tpone).filter
      (fun txid => decide (txid ∉ dictKeys mempool_t))
  let delta_sub := (dictKeys mempool_t).filter
      (fun txid => decide (txid ∉ dictKeys mempool_tpone))
  let mempool_add : Snapshot := delta_add.filterMap
      (fun txid => (dictGet mempool_tpone txid).map (fun info => (txid, info)))
  let mempool_sub : Snapshot := delta_sub.filterMap
      (fun txid => (dictGet mempool_t txid).map (fun info => (txid, info)))
  (mempool_add, mempool_sub)

/-! Helper lemmas about the delta engine. -/

theorem mem_dictKeys_of_mem {m : Snapshot} {k : String} {v : TxInfo}
    (h : (k, v) ∈ m) : k ∈ dictKeys m := by
  exact List.mem_map.mpr ⟨(k, v), h, rfl⟩

theorem dictGet_isSome_iff_mem {m : Snapshot} {k : String} :
    (dictGet m k).isSome ↔ k ∈ dictKeys m := by
  induction m with
  | nil => simp [dictGet, dictKeys]
  | cons hd tl ih =>
    cases hd with
    | mk k' v =>
      by_cases hk : k' = k
      · subst hk
        simp [dictGet, dictKeys]
      · simp [dictGet, dictKeys, hk, ih]
        intro hEq
        exact absurd hEq.symm hk

theorem mem_of_dictGet_eq_some {m : Snapshot} {k : String} {v : TxInfo}
    (h : dictGet m k = some v) : (k, v) ∈ m := by
  induction m with
  | nil => simp [dictGet] at h
  | cons hd tl ih =>
    cases hd with
    | mk k' v' =>
      by_cases hk : k' = k
      · subst hk
        simp [dictGet] at h
        subst h
        exact List.mem_cons_self _ _
      · simp [dictGet, hk] at h
        exact List.mem_cons_of_mem _ (ih h)

theorem mem_deltas_add_iff {A B : Snapshot} {k : String} {v : TxInfo} :
    (k, v) ∈ (calculate_mempool_deltas A B).1 ↔
      k ∉ dictKeys A ∧ dictGet B k = some v := by
  unfold calculate_mempool_deltas
  simp only [List.mem_filterMap, List.mem_filter, Option.map_eq_some']
  constructor
  · rintro ⟨t, ⟨htB, htA⟩, info, hget, hpair⟩
    cases hpair
    exact ⟨by simpa using htA, hget⟩
  · rintro ⟨hA, hget⟩
    exact ⟨k, ⟨dictGet_isSome_iff_mem.mp (by simp [hget]), by simpa using hA⟩,
           v, hget, rfl⟩

theorem mem_deltas_sub_iff {A B : Snapshot} {k : String} {v : TxInfo} :
    (k, v) ∈ (calculate_mempool_deltas A B).2 ↔
      k ∉ dictKeys B ∧ dictGet A k = some v := by
  unfold calculate_mempool_deltas
  simp only [List.mem_filterMap, List.mem_filter, Option.map_eq_some']
  constructor
  · rintro ⟨t, ⟨htA, htB⟩, info, hget, hpair⟩
    cases hpair
    exact ⟨by simpa using htB, hget⟩
  · rintro ⟨hB, hget⟩
    exact ⟨k, ⟨dictGet_isSome_iff_mem.mp (by simp [hget]), by simpa using hB⟩,
           v, hget, rfl⟩

theorem mem_keys_deltas_add_iff {A B : Snapshot} {k : String} :
    k ∈ dictKeys (calculate_mempool_deltas A B).1 ↔
      k ∈ dictKeys B ∧ k ∉ dictKeys A := by
  constructor
  · intro h
    rcases List.mem_map.mp h with ⟨⟨k', v⟩, hmem, hfst⟩
    cases hfst
    rcases mem_deltas_add_iff.mp hmem with ⟨hA, hget⟩
    exact ⟨mem_dictKeys_of_mem (mem_of_dictGet_eq_some hget), hA⟩
  · rintro ⟨hB, hA⟩
    rcases Option.isSome_iff_exists.mp (dictGet_isSome_iff_mem.mpr hB) with ⟨v, hv⟩
    exact mem_dictKeys_of_mem (mem_deltas_add_iff.mpr ⟨hA, hv⟩)

theorem mem_keys_deltas_sub_iff {A B : Snapshot} {k : String} :
    k ∈ dictKeys (calculate_mempool_deltas A B).2 ↔
      k ∈ dictKeys A ∧ k ∉ dictKeys B := by
  constructor
  · intro h
    rcases List.mem_map.mp h with ⟨⟨k', v⟩, hmem, hfst⟩
    cases hfst
    rcases mem_deltas_sub_iff.mp hmem with ⟨hB, hget⟩
    exact ⟨mem_dictKeys_of_mem (mem_of_dictGet_eq_some hget), hB⟩
  · rintro ⟨hA, hB⟩
    rcases Option.isSome_iff_exists.mp (dictGet_isSome_iff_mem.mpr hA) with ⟨v, hv⟩
    exact mem_dictKeys_of_mem (mem_deltas_sub_iff.mpr ⟨hB, hv⟩)

/-! ## Snapshot Mapper: the row projections of sql_db_interface.py -/

/-- One row destined for the `raw_mempool` table (pool membership):
`tuple([None, _tick, txid, _delta_mode, _chain_height])` in
`__parse_mempool`; the leading `None` is the auto-increment placeholder and
is not modelled. -/
structure RawMempoolRow where
  tick : Nat
  txid : String
  delta_mode : String
  chain_height : Nat
deriving DecidableEq, Repr

/-- One row destined for the `unconfirmed_txs` table (per-transaction
metadata), as built by `__parse_unconfirmed_txs`; the leading `None`
auto-increment placeholder is not modelled.  `depends` and `spentby` are
the derived booleans `bool(ancestorcount-1)` / `bool(descendantcount-1)`. -/
structure UnconfirmedTxRow where
  ancestorcount : Nat
  ancestorsize : Nat
  bip125_replaceable : Bool
  depends : Bool
  descendantcount : Nat
  descendantsize : Nat
  fees_base : Int
  fees_ancestor : Int
  fees_descendant : Int
  fees_modified : Int
  height : Nat
  spentby : Bool
  time : Nat
  vsize : Nat
  weight : Nat
  wtxid : String
deriving DecidableEq, Repr

/-- One row destined for the `ancestor_descend` table (relation edges):
`tuple([tick, txid, relation, related_txid])`. -/
structure AncestorDescendRow where
  tick : Nat
  txid : String
  relation : String
  rel_txid : String
deriving DecidableEq, Repr

/-- Embedding of `SqlDbInterface.__parse_unconfirmed_txs`
(sql_db_interface.py lines 126-169) for one transaction.  The source reads
`_verbose_mempool[_txid]`; here the already looked-up `TxInfo` is passed.
Note `depends = bool(ancestorcount - 1)` and
`spentby = bool(descendantcount - 1)`: Python `bool` on an integer is
"nonzero", and the subtraction is over ℤ, so both flags are the test
"count ≠ 1". -/
def parse_unconfirmed_txs (info : TxInfo) : UnconfirmedTxRow :=
  { ancestorcount := info.ancestorcount
    ancestorsize := info.ancestorsize
    bip125_replaceable := info.bip125_replaceable
    depends := decide (((info.ancestorcount : Int) - 1) ≠ 0)
    descendantcount := info.descendantcount
    descendantsize := info.descendantsize
    fees_base := info.fees_base
    fees_ancestor := info.fees_ancestor
    fees_descendant := info.fees_descendant
    fees_modified := info.fees_modified
    height := info.height
    spentby := decide (((info.descendantcount : Int) - 1) ≠ 0)
    time := info.time
    vsize := info.vsize
    weight := info.weight
    wtxid := info.wtxid }

/-- Embedding of `SqlDbInterface.__parse_ancestor_descend`
(sql_db_interface.py lines 173-195) for one transaction: when
`ancestorcount > 1`, one row tagged `ANCESTOR` per entry of `depends`;
then, when `descendantcount > 1`, one row tagged `DESCEND` per entry of
`spentby`, appended in that order. -/
def parse_ancestor_descend (txid : String) (info : TxInfo) (tick : Nat) :
    List AncestorDescendRow :=
  (if info.ancestorcount > 1 then
      info.depends.map (fun anc =>
        { tick := tick, txid := txid, relation := ANCESTOR, rel_txid := anc })
    else [])
  ++
  (if info.descendantcount > 1 then
      info.spentby.map (fun desc =>
        { tick := tick, txid := txid, relation := DESCEND, rel_txid := desc })
    else [])

/-- The three row lists returned by `__parse_mempool`, keyed in the source
by the table-name constants `UNCONFIRMED_TXS`, `RAW_MEMPOOL`,
`ANCESTOR_DESCEND`. -/
structure ParsedMempool where
  unconfirmed_txs : List UnconfirmedTxRow
  raw_mempool : List RawMempoolRow
  ancestor_descend : List AncestorDescendRow
deriving DecidableEq, Repr

/-- Embedding of `SqlDbInterface.__parse_mempool` (sql_db_interface.py
lines 86-122): one pass over the snapshot in iteration order, appending one
metadata row and one membership row per transaction, and — only when
`_delta_mode != MODE_SUB` and the transaction has `ancestorcount > 1 or
descendantcount > 1` — the relation-edge rows of
`__parse_ancestor_descend`. -/
def parse_mempool (verbose_mempool : Snapshot) (tick : Nat)
    (chain_height : Nat) (delta_mode : String) : ParsedMempool :=
  match verbose_mempool with
  | [] => { unconfirmed_txs := [], raw_mempool := [], ancestor_descend := [] }
  | (txid, info) :: rest =>
    let unconfirmed_tx := parse_unconfirmed_txs info
    let raw_mempool_row : RawMempoolRow :=
      { tick := tick, txid := txid, delta_mode := delta_mode,
        chain_height := chain_height }
    let txs_has_ancestor_depends :=
      info.ancestorcount > 1 ∨ info.descendantcount > 1
    let ancestor_descend :=
      if delta_mode ≠ MODE_SUB ∧ txs_has_ancestor_depends then
        parse_ancestor_descend txid info tick
      else []
    let parsed_rest := parse_mempool rest tick chain_height delta_mode
    { unconfirmed_txs := unconfirmed_tx :: parsed_rest.unconfirmed_txs
      raw_mempool := raw_mempool_row :: parsed_rest.raw_mempool
      ancestor_descend := ancestor_descend ++ parsed_rest.ancestor_descend }

/-! ## Persistence Gateway: insert_mempool_txs and get_last_tick -/

/-- Oracle for the external SQL store: whether each of the three batched
`__sql_insert` calls of one `insert_mempool_txs` invocation succeeds, in
the order the source issues them (unconfirmed_txs, raw_mempool,
ancestor_descend).  `false` means the call raises. -/
structure StoreBehavior where
  unconfirmedOk : Bool
  rawMempoolOk : Bool
  ancestorDescendOk : Bool
deriving DecidableEq, Repr

/-- Observable outcome of one `SqlDbInterface.insert_mempool_txs` call:
the parsed rows, which of the three batched writes committed, whether the
`except` handler logged a SQL error, and the returned value.  The method
never lets an exception escape: the single `try` wraps all three writes
and its handler only logs. -/
structure InsertResult where
  rows : ParsedMempool
  committedUnconfirmed : Bool
  committedRawMempool : Bool
  committedAncestorDescend : Bool
  loggedSqlError : Bool
  retval : Bool
deriving DecidableEq, Repr

/-- Embedding of `SqlDbInterface.insert_mempool_txs` (sql_db_interface.py
lines 37-63).  The three writes run sequentially inside one `try`; the
first failing write raises, skipping the later writes, and the handler
logs and falls through — so `return True` is reached on every path. -/
def insert_mempool_txs (store : StoreBehavior) (verbose_mempool : Snapshot)
    (tick : Nat) (chain_height : Nat) (delta_mode : String) : InsertResult :=
  let response := parse_mempool verbose_mempool tick chain_height delta_mode
  if store.unconfirmedOk = false then
    { rows := response, committedUnconfirmed := false,
      committedRawMempool := false, committedAncestorDescend := false,
      loggedSqlError := true, retval := true }
  else if store.rawMempoolOk = false then
    { rows := response, committedUnconfirmed := true,
      committedRawMempool := false, committedAncestorDescend := false,
      loggedSqlError := true, retval := true }
  else if store.ancestorDescendOk = false then
    { rows := response, committedUnconfirmed := true,
      committedRawMempool := true, committedAncestorDescend := false,
      loggedSqlError := true, retval := true }
  else
    { rows := response, committedUnconfirmed := true,
      committedRawMempool := true, committedAncestorDescend := true,
      loggedSqlError := false, retval := true }

/-- The Python error that escapes `get_last_tick` when its SELECT fails:
the handler body `_last_tick[0] = None` subscript-assigns into the local
`_last_tick`, which is unbound at that point (the `try` body raised before
binding it), so Python raises an unbound-local error out of the method. -/
inductive PyError where
  | nameError
deriving DecidableEq, Repr

/-- Embedding of `SqlDbInterface.get_last_tick` (sql_db_interface.py lines
66-81).  Input: the outcome of the `SELECT MAX(tick) FROM raw_mempool`
fetchone — either an error, or the single row's value (`none` models SQL
NULL, returned by MAX over an empty table).  On a successful query the
method returns `_last_tick[0]`; on a raising query the `except` handler
itself raises (see `PyError.nameError`), so the exception reaches the
caller. -/
def get_last_tick (selectResult : Except Unit (Option Nat)) :
    Except PyError (Option Nat) :=
  match selectResult with
  | Except.ok row => Except.ok row
  | Except.error _ => Except.error PyError.nameError

/-! ## Orchestrator: steady-state cycle and bootstrap of monitor.py -/

/-- The monitor state owned by the orchestrator across cycles:
`self.__chain_height`, `self.__bestblockhash`, the held previous snapshot
`self.__mempool`, and the tick counter `self.__nr_ticks`. -/
structure MonitorState where
  chain_height : Nat
  bestblockhash : String
  mempool : Snapshot
  nr_ticks : Nat
deriving DecidableEq, Repr

/-- Observable outcome of one steady-state iteration of
`MempoolMonitor.run`: the state after the iteration, whether the loop
slept before the next iteration, and the two `insert_mempool_txs` call
results (absent when the cycle was abandoned before persisting). -/
structure CycleResult where
  state : MonitorState
  slept : Bool
  dbAdd : Option InsertResult
  dbSub : Option InsertResult
deriving DecidableEq, Repr

/-- Embedding of one steady-state (post-bootstrap) iteration of the
`while True` loop of `MempoolMonitor.run` (monitor.py lines 112-200).
`blockchain_info` and `raw_mempool` are the outcomes of the two RPC reads
(error = the call raised).  A failed read is logged, the loop sleeps and
`continue`s with the state untouched.  On successful reads the deltas are
computed against the held snapshot and persisted at the current tick in
modes ADD then SUB; `insert_mempool_txs` never raises (and even a raising
insert would be caught by the surrounding `except`, which logs and falls
through), after which the state is unconditionally updated: chain height
and best block recorded, the held snapshot replaced, and the tick
incremented. -/
def run_cycle (s : MonitorState) (blockchain_info : Except Unit (Nat × String))
    (raw_mempool : Except Unit Snapshot)
    (storeAdd storeSub : StoreBehavior) : CycleResult :=
  match blockchain_info with
  | Except.error _ => { state := s, slept := true, dbAdd := none, dbSub := none }
  | Except.ok (chain_height, bestblockhash) =>
    match raw_mempool with
    | Except.error _ => { state := s, slept := true, dbAdd := none, dbSub := none }
    | Except.ok mempool =>
      let mempool_deltas := calculate_mempool_deltas s.mempool mempool
      let rAdd := insert_mempool_txs storeAdd mempool_deltas.1 s.nr_ticks
          chain_height MODE_ADD
      let rSub := insert_mempool_txs storeSub mempool_deltas.2 s.nr_ticks
          chain_height MODE_SUB
      { state := { chain_height := chain_height,
                   bestblockhash := bestblockhash,
                   mempool := mempool,
                   nr_ticks := s.nr_ticks + 1 },
        slept := true, dbAdd := some rAdd, dbSub := some rSub }

/-- Record of the single `insert_mempool_txs` call made by a successful
bootstrap: the tick and mode arguments it received and its result. -/
structure InsertCall where
  tick : Nat
  chain_height : Nat
  delta_mode : String
  result : InsertResult
deriving DecidableEq, Repr

/-- Embedding of `MempoolMonitor.bootstrap_mempool_monitor` (monitor.py
lines 203-260).  `selectResult` is the SELECT outcome consumed by the
`get_last_tick` call.  If `get_last_tick` raises, the method returns
`True` (bootstrap failed, retry next cycle) with the state untouched.
Otherwise it records chain height, best block and the snapshot, adds
`last_tick + 1` to `self.__nr_ticks` when the store was non-empty, dumps
the full snapshot at that tick in mode INIT, increments the tick and
returns `False`.  The source's `except` around the dump is unreachable
because `insert_mempool_txs` never raises.  Returns (returned bootstrap
flag, new state, the dump call if reached). -/
def bootstrap_mempool_monitor (s : MonitorState)
    (selectResult : Except Unit (Option Nat)) (blocks : Nat)
    (bestblockhash : String) (mempool : Snapshot) (store : StoreBehavior) :
    Bool × MonitorState × Option InsertCall :=
  match get_last_tick selectResult with
  | Except.error _ => (true, s, none)
  | Except.ok last_tick =>
    let s1 : MonitorState :=
      { chain_height := blocks, bestblockhash := bestblockhash,
        mempool := mempool,
        nr_ticks := match last_tick with
                    | some t => s.nr_ticks + (t + 1)
                    | none => s.nr_ticks }
    let r := insert_mempool_txs store mempool s1.nr_ticks s1.chain_height
        MODE_INIT
    (false,
     { s1 with nr_ticks := s1.nr_ticks + 1 },
     some { tick := s1.nr_ticks, chain_height := s1.chain_height,
            delta_mode := MODE_INIT, result := r })

/-! ## Helper lemmas about the mapper -/

theorem relation_of_mem_parse_ancestor_descend {txid : String} {info : TxInfo}
    {tick : Nat} {r : AncestorDescendRow}
    (h : r ∈ parse_ancestor_descend txid info tick) :
    r.relation = ANCESTOR ∨ r.relation = DESCEND := by
  unfold parse_ancestor_descend at h
  rcases List.mem_append.mp h with h1 | h2
  · left
    split at h1
    · rcases List.mem_map.mp h1 with ⟨a, _, hEq⟩
      cases hEq
      rfl
    · simp at h1
  · right
    split at h2
    · rcases List.mem_map.mp h2 with ⟨a, _, hEq⟩
      cases hEq
      rfl
    · simp at h2

theorem txid_of_mem_parse_ancestor_descend {txid : String} {info : TxInfo}
    {tick : Nat} {r : AncestorDescendRow}
    (h : r ∈ parse_ancestor_descend txid info tick) : r.txid = txid := by
  unfold parse_ancestor_descend at h
  rcases List.mem_append.mp h with h1 | h1 <;>
    · split at h1
      · rcases List.mem_map.mp h1 with ⟨a, _, hEq⟩
        cases hEq
        rfl
      · simp at h1

theorem length_parse_ancestor_descend (txid : String) (info : TxInfo)
    (tick : Nat) :
    (parse_ancestor_descend txid info tick).length
      = (if info.ancestorcount > 1 then info.depends.length else 0)
        + (if info.descendantcount > 1 then info.spentby.length else 0) := by
  unfold parse_ancestor_descend
  by_cases ha : info.ancestorcount > 1 <;>
    by_cases hd : info.descendantcount > 1 <;>
      simp [ha, hd]

theorem txid_mem_keys_of_mem_edges {m : Snapshot} {tick chain_height : Nat}
    {mode : String} {r : AncestorDescendRow}
    (h : r ∈ (parse_mempool m tick chain_height mode).ancestor_descend) :
    r.txid ∈ dictKeys m := by
  induction m with
  | nil => simp [parse_mempool] at h
  | cons hd tl ih =>
    cases hd with
    | mk k0 i0 =>
      rw [parse_mempool] at h
      simp only [List.mem_append] at h
      rcases h with h1 | h2
      · split at h1
        · have := txid_of_mem_parse_ancestor_descend h1
          simp [dictKeys, this]
        · simp at h1
      · have := ih h2
        simp [dictKeys] at this ⊢
        exact Or.inr this

/-! ## Claim theorems -/

/-- A nominal single-transaction TxInfo used as the concrete payload of the
witness and counterexample instances below (ancestor and descendant counts
both 1, empty depends/spentby). -/
def exTx : TxInfo :=
  { ancestorcount := 1, ancestorsize := 100, bip125_replaceable := false,
    descendantcount := 1, descendantsize := 200, fees_base := 1,
    fees_ancestor := 2, fees_descendant := 3, fees_modified := 4,
    height := 10, time := 99, vsize := 50, weight := 150, wtxid := "w1",
    depends := [], spentby := [] }

/-- C3: on bootstrap from an initial monitor state (tick counter 0), an
empty membership store (maxTick absent) makes the first dump use tick 0
and mode INIT, and a stored maximum tick T makes it use tick T + 1 and
mode INIT; in both cases the bootstrap succeeds (returns False). -/
theorem c3_bootstrap_tick_selection (s : MonitorState) (blocks : Nat)
    (bbh : String) (mempool : Snapshot) (store : StoreBehavior) (T : Nat)
    (h0 : s.nr_ticks = 0) :
    ((bootstrap_mempool_monitor s (Except.ok none) blocks bbh mempool
        store).2.2.map (fun c => (c.tick, c.delta_mode)) = some (0, MODE_INIT))
    ∧ (bootstrap_mempool_monitor s (Except.ok none) blocks bbh mempool
        store).1 = false
    ∧ ((bootstrap_mempool_monitor s (Except.ok (some T)) blocks bbh mempool
        store).2.2.map (fun c => (c.tick, c.delta_mode))
        = some (T + 1, MODE_INIT))
    ∧ (bootstrap_mempool_monitor s (Except.ok (some T)) blocks bbh mempool
        store).1 = false := by
  simp [bootstrap_mempool_monitor, get_last_tick, h0]

/-- Witness for C3 at the spec's own example: store with maximum tick 41
gives a first dump at tick 42 in mode INIT (and tick 0 on an empty store). -/
theorem c3_bootstrap_tick_selection_witness :
    ((bootstrap_mempool_monitor ⟨0, "", [], 0⟩ (Except.ok none) 100 "bb" []
        ⟨true, true, true⟩).2.2.map (fun c => (c.tick, c.delta_mode))
        = some (0, MODE_INIT))
    ∧ (bootstrap_mempool_monitor ⟨0, "", [], 0⟩ (Except.ok none) 100 "bb" []
        ⟨true, true, true⟩).1 = false
    ∧ ((bootstrap_mempool_monitor ⟨0, "", [], 0⟩ (Except.ok (some 41)) 100
        "bb" [] ⟨true, true, true⟩).2.2.map (fun c => (c.tick, c.delta_mode))
        = some (42, MODE_INIT))
    ∧ (bootstrap_mempool_monitor ⟨0, "", [], 0⟩ (Except.ok (some 41)) 100
        "bb" [] ⟨true, true, true⟩).1 = false :=
  c3_bootstrap_tick_selection ⟨0, "", [], 0⟩ 100 "bb" [] ⟨true, true, true⟩
    41 rfl

/-- C4: mapping any snapshot with mode = SUB emits zero relation-edge rows,
for every tick and chain height and regardless of the ancestor/descendant
counts and relation lists of its transactions. -/
theorem c4_sub_mode_no_edges (mempool : Snapshot) (tick chain_height : Nat) :
    (parse_mempool mempool tick chain_height MODE_SUB).ancestor_descend
      = [] := by
  induction mempool with
  | nil => rfl
  | cons hd tl ih =>
    cases hd with
    | mk txid info =>
      rw [parse_mempool]
      simp [ih]

/-- C6: replaying the diff — ADD keys as insertions, SUB keys as removals —
against the key set of the older snapshot A yields exactly the key set of
the newer snapshot B; every ADD entry is an entry of B and every SUB entry
is an entry of A (values pulled from `current` resp. `previous`). -/
theorem c6_delta_replay (A B : Snapshot) (k : String) (v : TxInfo) :
    (((k ∈ dictKeys A ∨ k ∈ dictKeys (calculate_mempool_deltas A B).1) ∧
        k ∉ dictKeys (calculate_mempool_deltas A B).2) ↔ k ∈ dictKeys B)
    ∧ ((k, v) ∈ (calculate_mempool_deltas A B).1 → (k, v) ∈ B)
    ∧ ((k, v) ∈ (calculate_mempool_deltas A B).2 → (k, v) ∈ A) := by
  refine ⟨⟨?_, ?_⟩, ?_, ?_⟩
  · rintro ⟨hor, hnsub⟩
    rcases hor with hA | hadd
    · by_contra hB
      exact hnsub (mem_keys_deltas_sub_iff.mpr ⟨hA, hB⟩)
    · exact (mem_keys_deltas_add_iff.mp hadd).1
  · intro hB
    refine ⟨?_, ?_⟩
    · by_cases hA : k ∈ dictKeys A
      · exact Or.inl hA
      · exact Or.inr (mem_keys_deltas_add_iff.mpr ⟨hB, hA⟩)
    · intro hsub
      exact (mem_keys_deltas_sub_iff.mp hsub).2 hB
  · intro h
    exact mem_of_dictGet_eq_some (mem_deltas_add_iff.mp h).2
  · intro h
    exact mem_of_dictGet_eq_some (mem_deltas_sub_iff.mp h).2

/-- Witness for C6 on A = {"a"}, B = {"b"}: replay puts "b" in the
reconstructed key set, and the ADD entry for "b" is an entry of B. -/
theorem c6_delta_replay_witness :
    "b" ∈ dictKeys [("b", exTx)]
    ∧ ("b", exTx) ∈ ([("b", exTx)] : Snapshot) :=
  ⟨(c6_delta_replay [("a", exTx)] [("b", exTx)] "b" exTx).1.mp (by decide),
   (c6_delta_replay [("a", exTx)] [("b", exTx)] "b" exTx).2.1 (by decide)⟩

/-- C7: a key in the ADD projection of a delta is never in its SUB
projection (the two key sets are disjoint), and diffing a snapshot against
itself yields empty ADD and empty SUB. -/
theorem c7_delta_disjoint_and_diag (A B : Snapshot) (k : String)
    (h : k ∈ dictKeys (calculate_mempool_deltas A B).1) :
    k ∉ dictKeys (calculate_mempool_deltas A B).2
    ∧ calculate_mempool_deltas A A = ([], []) := by
  constructor
  · intro hsub
    exact (mem_keys_deltas_add_iff.mp h).2 (mem_keys_deltas_sub_iff.mp hsub).1
  · have h1 : (dictKeys A).filter (fun t => decide (t ∉ dictKeys A)) = [] := by
      rw [List.filter_eq_nil_iff]
      intro a ha
      simp [ha]
    unfold calculate_mempool_deltas
    simp [h1]

/-- Witness for C7 on A = {"a"}, B = {"b"}: the added key "b" is not in
the SUB projection, and diff(A,A) is the empty delta. -/
theorem c7_delta_disjoint_and_diag_witness :
    "b" ∉ dictKeys (calculate_mempool_deltas [("a", exTx)] [("b", exTx)]).2
    ∧ calculate_mempool_deltas [("a", exTx)] [("a", exTx)] = ([], []) :=
  c7_delta_disjoint_and_diag [("a", exTx)] [("b", exTx)] "b" (by decide)

/-- C10: `get_last_tick` returns None only when the SELECT succeeded and
the membership table was empty (the fetched MAX is NULL); when the SELECT
raises, the except handler assigns into the never-bound local `_last_tick`
and the call raises an unbound-local error to its caller instead of
returning None. -/
theorem c10_get_last_tick_none_only_on_empty (q : Except Unit (Option Nat))
    (h : get_last_tick q = Except.ok none) :
    q = Except.ok none
    ∧ get_last_tick (Except.error ()) = Except.error PyError.nameError := by
  refine ⟨?_, rfl⟩
  cases q with
  | ok row =>
    simp [get_last_tick] at h
    simp [h]
  | error e => simp [get_last_tick] at h

/-- Witness for C10 at the empty-table query outcome. -/
theorem c10_get_last_tick_none_only_on_empty_witness :
    (Except.ok none : Except Unit (Option Nat)) = Except.ok none
    ∧ get_last_tick (Except.error ()) = Except.error PyError.nameError :=
  c10_get_last_tick_none_only_on_empty (Except.ok none) rfl

/-- C1 counterexample: a steady-state cycle at tick 5 holding snapshot
{"a"} whose two RPC reads succeed but whose first storage write of the ADD
insert fails (a transient storage failure): the SQL error is logged inside
`insert_mempool_txs`, yet the cycle is not abandoned — the tick advances
to 6 and the held snapshot is replaced by the fetched one. -/
theorem c1_counterexample :
    ((run_cycle ⟨100, "bb", [("a", exTx)], 5⟩ (Except.ok (101, "cc"))
        (Except.ok [("b", exTx)]) ⟨false, true, true⟩
        ⟨true, true, true⟩).dbAdd.map (fun r => r.loggedSqlError)
      = some true)
    ∧ (run_cycle ⟨100, "bb", [("a", exTx)], 5⟩ (Except.ok (101, "cc"))
        (Except.ok [("b", exTx)]) ⟨false, true, true⟩
        ⟨true, true, true⟩).state.nr_ticks = 6
    ∧ (run_cycle ⟨100, "bb", [("a", exTx)], 5⟩ (Except.ok (101, "cc"))
        (Except.ok [("b", exTx)]) ⟨false, true, true⟩
        ⟨true, true, true⟩).state.mempool = [("b", exTx)] := by
  decide

/-- C1 amended: a failed node read (chain-state or mempool RPC) abandons
the steady-state cycle without advancing the tick or mutating the held
snapshot, and the loop resumes after the normal sleep interval; a storage
write failure, by contrast, does not abandon the cycle — whatever the
store does, the tick advances by exactly one and the held snapshot is
replaced by the fetched one (the loop still sleeping normally). -/
theorem c1_amended_failure_handling (s : MonitorState)
    (rm : Except Unit Snapshot) (ci : Nat × String) (mp : Snapshot)
    (storeAdd storeSub : StoreBehavior) :
    run_cycle s (Except.error ()) rm storeAdd storeSub
      = { state := s, slept := true, dbAdd := none, dbSub := none }
    ∧ run_cycle s (Except.ok ci) (Except.error ()) storeAdd storeSub
      = { state := s, slept := true, dbAdd := none, dbSub := none }
    ∧ (run_cycle s (Except.ok ci) (Except.ok mp) storeAdd
        storeSub).state.nr_ticks = s.nr_ticks + 1
    ∧ (run_cycle s (Except.ok ci) (Except.ok mp) storeAdd
        storeSub).state.mempool = mp
    ∧ (run_cycle s (Except.ok ci) (Except.ok mp) storeAdd
        storeSub).slept = true := by
  obtain ⟨ch, bb⟩ := ci
  exact ⟨rfl, rfl, rfl, rfl, rfl⟩

/-- C2 counterexample: with the first batched write succeeding and the
second failing inside one `insert_mempool_txs` call, the call still
returns True — the same value a fully clean call returns — so the partial
commit is not surfaced to the caller through the call's result. -/
theorem c2_counterexample :
    (insert_mempool_txs ⟨true, false, true⟩ [("a", exTx)] 5 100
        MODE_ADD).committedUnconfirmed = true
    ∧ (insert_mempool_txs ⟨true, false, true⟩ [("a", exTx)] 5 100
        MODE_ADD).committedRawMempool = false
    ∧ (insert_mempool_txs ⟨true, false, true⟩ [("a", exTx)] 5 100
        MODE_ADD).retval
      = (insert_mempool_txs ⟨true, true, true⟩ [("a", exTx)] 5 100
        MODE_ADD).retval
    ∧ (insert_mempool_txs ⟨true, false, true⟩ [("a", exTx)] 5 100
        MODE_ADD).retval = true := by
  decide

/-- C2 amended: `insert_mempool_txs` returns True on every path, so its
return value never distinguishes a failed or partially-committed cycle
from a clean one; a failure of any of the three record-kind writes
(including one occurring after another write succeeded) is surfaced only
through the logged SQL error. -/
theorem c2_amended_always_true_logged_only (store : StoreBehavior)
    (m : Snapshot) (tick chain_height : Nat) (delta_mode : String) :
    (insert_mempool_txs store m tick chain_height delta_mode).retval = true
    ∧ (insert_mempool_txs store m tick chain_height delta_mode).loggedSqlError
      = (!store.unconfirmedOk || !store.rawMempoolOk ||
         !store.ancestorDescendOk) := by
  unfold insert_mempool_txs
  cases hu : store.unconfirmedOk <;> cases hr : store.rawMempoolOk <;>
    cases ha : store.ancestorDescendOk <;> simp [hu, hr, ha]

/-- A TxInfo with ancestor-count 2 but descendant-count 1 while both
relation lists are non-empty, exercising the mapper's separate per-list
guards. -/
def exTxMixed : TxInfo :=
  { exTx with
    ancestorcount := 2
    descendantcount := 1
    depends := ["p"]
    spentby := ["c"] }

/-- C5 counterexample: a transaction with ancestor-count 2 (> 1),
descendant-count 1, one depends entry and one spent-by entry.  The claim
predicts one edge row per depends entry plus one per spent-by entry (two
rows); the mapper emits only the depends edge (one row), because spent-by
edges are guarded separately by descendant-count > 1. -/
theorem c5_counterexample :
    (parse_mempool [("t1", exTxMixed)] 7 10 MODE_ADD).ancestor_descend.length
      = 1
    ∧ exTxMixed.ancestorcount > 1
    ∧ exTxMixed.depends.length + exTxMixed.spentby.length = 2 := by
  decide

/-- C5 amended: mapping with mode INIT or ADD a snapshot with distinct
keys, each transaction yields exactly one edge row per entry of its
depends list when its ancestor-count > 1 (none otherwise), plus one edge
row per entry of its spent-by list when its descendant-count > 1 (none
otherwise); in particular a transaction with both counts ≤ 1 yields zero
edge rows. -/
theorem c5_amended_edge_counts (mempool : Snapshot)
    (tick chain_height : Nat) (mode : String) (txid : String) (info : TxInfo)
    (hnodup : (dictKeys mempool).Nodup) (hmem : (txid, info) ∈ mempool)
    (hmode : mode = MODE_INIT ∨ mode = MODE_ADD) :
    ((parse_mempool mempool tick chain_height mode).ancestor_descend.filter
        (fun r => decide (r.txid = txid))).length
      = (if info.ancestorcount > 1 then info.depends.length else 0)
        + (if info.descendantcount > 1 then info.spentby.length else 0) := by
  have hmodesub : mode ≠ MODE_SUB := by
    rcases hmode with h | h <;> subst h <;> decide
  induction mempool with
  | nil => simp at hmem
  | cons hd tl ih =>
    cases hd with
    | mk k0 i0 =>
      have hnodup' : k0 ∉ dictKeys tl ∧ (dictKeys tl).Nodup := by
        simpa [dictKeys] using hnodup
      rw [parse_mempool]
      simp only [List.filter_append, List.length_append]
      rcases List.mem_cons.mp hmem with hEq | hIn
      · cases hEq
        have htl : ((parse_mempool tl tick chain_height
            mode).ancestor_descend.filter
              (fun r => decide (r.txid = txid))) = [] := by
          rw [List.filter_eq_nil_iff]
          intro r hr
          have := txid_mem_keys_of_mem_edges hr
          simp only [decide_eq_true_eq]
          intro hcontra
          rw [hcontra] at this
          exact hnodup'.1 this
        rw [htl]
        simp only [List.length_nil, Nat.add_zero]
        by_cases hgate : info.ancestorcount > 1 ∨ info.descendantcount > 1
        · have hpad : (if mode ≠ MODE_SUB ∧
              (info.ancestorcount > 1 ∨ info.descendantcount > 1) then
                parse_ancestor_descend txid info tick
              else []) = parse_ancestor_descend txid info tick := by
            simp [hmodesub, hgate]
          rw [hpad]
          have hall : (parse_ancestor_descend txid info tick).filter
              (fun r => decide (r.txid = txid))
                = parse_ancestor_descend txid info tick := by
            rw [List.filter_eq_self]
            intro r hr
            simp [txid_of_mem_parse_ancestor_descend hr]
          rw [hall, length_parse_ancestor_descend]
        · push_neg at hgate
          have h1 : ¬ info.ancestorcount > 1 := by omega
          have h2 : ¬ info.descendantcount > 1 := by omega
          simp [h1, h2, hgate]
      · have hk0 : k0 ≠ txid := by
          intro hcontra
          rw [hcontra] at hnodup'
          exact hnodup'.1 (mem_dictKeys_of_mem hIn)
        have hpad0 : ((if mode ≠ MODE_SUB ∧
            (i0.ancestorcount > 1 ∨ i0.descendantcount > 1) then
              parse_ancestor_descend k0 i0 tick
            else []).filter (fun r => decide (r.txid = txid))) = [] := by
          rw [List.filter_eq_nil_iff]
          intro r hr
          split at hr
          · have := txid_of_mem_parse_ancestor_descend hr
            simp only [decide_eq_true_eq]
            rw [this]
            exact hk0
          · simp at hr
        rw [hpad0]
        simp only [List.length_nil, Nat.zero_add]
        exact ih hnodup'.2 hIn

/-- Witness for C5 (amended) at the mixed-count transaction: one depends
edge is counted, no spent-by edge. -/
theorem c5_amended_edge_counts_witness :
    ((parse_mempool [("t1", exTxMixed)] 7 10
        MODE_ADD).ancestor_descend.filter
        (fun r => decide (r.txid = "t1"))).length
      = (if exTxMixed.ancestorcount > 1 then exTxMixed.depends.length else 0)
        + (if exTxMixed.descendantcount > 1 then exTxMixed.spentby.length
           else 0) :=
  c5_amended_edge_counts [("t1", exTxMixed)] 7 10 MODE_ADD "t1" exTxMixed
    (by decide) (by decide) (Or.inr rfl)

/-- A TxInfo with descendant-count 2 and one spent-by entry, whose mapped
edge row exhibits the relation tag actually written for descendants. -/
def exTxDesc : TxInfo :=
  { exTx with descendantcount := 2, spentby := ["x"] }

/-- C8 counterexample: the relation-edge row emitted for a spent-by entry
carries the tag "descend" (the DESCEND constant of the schema module), not
"descendant" — so the emitted relation is not drawn from
{"ancestor", "descendant"}. -/
theorem c8_counterexample :
    ((parse_mempool [("t1", exTxDesc)] 3 10 MODE_INIT).ancestor_descend.map
        (fun r => r.relation)) = [DESCEND]
    ∧ DESCEND ≠ ANCESTOR ∧ DESCEND ≠ DESCENDANT := by
  decide

/-- C8 amended: every relation-edge row the mapper emits has its relation
field drawn from {"ancestor", "descend"}: depends-derived edges carry
"ancestor" and spent-by-derived edges carry "descend". -/
theorem c8_amended_relation_tags (mempool : Snapshot)
    (tick chain_height : Nat) (mode : String) (r : AncestorDescendRow)
    (h : r ∈ (parse_mempool mempool tick chain_height mode).ancestor_descend) :
    r.relation = ANCESTOR ∨ r.relation = DESCEND := by
  induction mempool with
  | nil => simp [parse_mempool] at h
  | cons hd tl ih =>
    cases hd with
    | mk k0 i0 =>
      rw [parse_mempool] at h
      simp only [List.mem_append] at h
      rcases h with h1 | h2
      · split at h1
        · exact relation_of_mem_parse_ancestor_descend h1
        · simp at h1
      · exact ih h2

/-- Witness for C8 (amended) at the concrete spent-by edge row emitted for
`exTxDesc`. -/
theorem c8_amended_relation_tags_witness :
    (⟨3, "t1", DESCEND, "x"⟩ : AncestorDescendRow).relation = ANCESTOR
    ∨ (⟨3, "t1", DESCEND, "x"⟩ : AncestorDescendRow).relation = DESCEND :=
  c8_amended_relation_tags [("t1", exTxDesc)] 3 10 MODE_INIT
    ⟨3, "t1", DESCEND, "x"⟩ (by decide)

/-- A TxInfo with ancestor-count 0, where `bool(ancestorcount - 1)` is
True although ancestor-count > 1 is false. -/
def exTxAncZero : TxInfo := { exTx with ancestorcount := 0 }

/-- C9 counterexample: at ancestor-count 0 the metadata row's depends flag
is `bool(0 - 1) = bool(-1) = True`, while the claimed derivation
(ancestor-count > 1) is false. -/
theorem c9_counterexample :
    (parse_unconfirmed_txs exTxAncZero).depends = true
    ∧ exTxAncZero.ancestorcount = 0
    ∧ decide (exTxAncZero.ancestorcount > 1) = false := by
  decide

/-- C9 amended: the metadata row's depends flag equals
(ancestor-count ≠ 1) and its spentby flag equals (descendant-count ≠ 1);
for every count ≥ 1 — all counts Bitcoin Core can report, since a
transaction counts itself — these coincide with (count > 1), the flags
differing from the claimed derivation only at count 0, where they are
true. -/
theorem c9_amended_derived_flags (info : TxInfo) :
    ((parse_unconfirmed_txs info).depends
      = decide (info.ancestorcount ≠ 1))
    ∧ ((parse_unconfirmed_txs info).spentby
      = decide (info.descendantcount ≠ 1))
    ∧ (1 ≤ info.ancestorcount →
        (parse_unconfirmed_txs info).depends
          = decide (info.ancestorcount > 1))
    ∧ (1 ≤ info.descendantcount →
        (parse_unconfirmed_txs info).spentby
          = decide (info.descendantcount > 1)) := by
  have hdep : (parse_unconfirmed_txs info).depends
      = decide (info.ancestorcount ≠ 1) := by
    simp only [parse_unconfirmed_txs]
    apply decide_eq_decide.mpr
    omega
  have hspent : (parse_unconfirmed_txs info).spentby
      = decide (info.descendantcount ≠ 1) := by
    simp only [parse_unconfirmed_txs]
    apply decide_eq_decide.mpr
    omega
  refine ⟨hdep, hspent, ?_, ?_⟩
  · intro h1
    rw [hdep]
    apply decide_eq_decide.mpr
    omega
  · intro h1
    rw [hspent]
    apply decide_eq_decide.mpr
    omega

/-- Witness for C9 (amended) at the nominal transaction (both counts 1):
both derived flags agree with the (count > 1) derivation there. -/
theorem c9_amended_derived_flags_witness :
    (parse_unconfirmed_txs exTx).depends
      = decide (exTx.ancestorcount > 1)
    ∧ (parse_unconfirmed_txs exTx).spentby
      = decide (exTx.descendantcount > 1) :=
  ⟨(c9_amended_derived_flags exTx).2.2.1 (by decide),
   (c9_amended_derived_flags exTx).2.2.2 (by decide)⟩

end Mpmonitor
